import Mathlib

/-!
# Verification of the BullmartX signal relay core (src/bot.py)

Shallow embedding of the signal-to-message translation and position-state
correlation logic of `src/bot.py`:

* `format_entry_signal`, `format_exit_signal`, `format_update_signal`
  (lines 79-177) become pure Lean functions over a `SignalRecord` whose
  optional fields model the untyped JSON payload (`data.get(key, default)`
  becomes `Option.getD`).  Python floats are modelled as rationals; the
  `:.2f` / `:.6f` format specifiers become `fmtFixed` (fixed-point decimal
  rendering with round-half-to-even, Python's rounding mode).
* The module-level dict `position_states` (line 41) becomes an association
  list `StateMap`; Python dict assignment becomes `setState`, membership
  test plus subscript read becomes `lookupState`.
* The body of `webhook_handler` after authentication and JSON parsing
  (lines 233-277) becomes `webhook_handler`, returning the ordered list of
  observable events (Telegram sends, position-state reads/writes, the
  unknown-type log), the updated state map, and the HTTP response content.
  `datetime.utcnow().isoformat()` is passed in as the parameter `now`.

Python's ASCII-relevant string primitives (`lower`, `upper`, `strip`,
`in`) are embedded as rune-list functions `pyLower`, `pyUpper`, `pyStrip`,
`strContains`; the payloads this service receives are ASCII in every field
these functions touch.
-/

/-- Python `str.lower()` (ASCII case folding, which is all the bot's
signal-type strings use). -/
def pyLower (s : String) : String := String.mk (s.data.map Char.toLower)

/-- Python `str.upper()` (ASCII case folding). -/
def pyUpper (s : String) : String := String.mk (s.data.map Char.toUpper)

/-- Python `str.strip()` with no argument: drop leading and trailing
whitespace. -/
def pyStrip (s : String) : String :=
  String.mk ((s.data.dropWhile Char.isWhitespace).reverse.dropWhile
    Char.isWhitespace).reverse

/-- Substring test on rune lists; `containsSub h n` is true iff `n` occurs
contiguously in `h` (the meaning of Python's `in` on strings). -/
def containsSub : List Char → List Char → Bool
  | [], needle => needle.isEmpty
  | c :: t, needle => needle.isPrefixOf (c :: t) || containsSub t needle

/-- `needle in hay` for Lean strings. -/
def strContains (hay needle : String) : Bool :=
  containsSub hay.data needle.data

/-- Round a rational to the nearest integer, ties to even — the rounding
Python applies when formatting with `:.Nf`. -/
def roundHalfEven (q : ℚ) : ℤ :=
  let f : ℤ := q.floor
  let r : ℚ := q - (f : ℚ)
  if r < 1/2 then f
  else if r > 1/2 then f + 1
  else if f % 2 = 0 then f else f + 1

/-- Left-pad a digit string with zeros to length `n`. -/
def padZeros (s : String) (n : ℕ) : String :=
  String.mk (List.replicate (n - s.length) '0') ++ s

/-- Python's `format(x, '.Nf')` on an exact value: fixed-point decimal
with `prec` digits after the point. -/
def fmtFixed (q : ℚ) (prec : ℕ) : String :=
  let n : ℤ := roundHalfEven (q * ((10 : ℚ) ^ prec))
  let sign := if n < 0 then "-" else ""
  let a := n.natAbs
  let ip := a / 10 ^ prec
  let fp := a % 10 ^ prec
  if prec = 0 then sign ++ toString ip
  else sign ++ toString ip ++ "." ++ padZeros (toString fp) prec

/-- The inbound webhook payload (`payload` in `webhook_handler`): an
untyped JSON object whose fields may each be absent.  Numeric JSON values
are modelled as rationals. -/
structure SignalRecord where
  signal_type : Option String := none
  symbol : Option String := none
  timeframe : Option String := none
  price : Option ℚ := none
  momentum : Option ℚ := none
  vwap : Option ℚ := none
  entry_price : Option ℚ := none
  tp_price : Option ℚ := none
  sl_price : Option ℚ := none
  direction : Option String := none
  update_type : Option String := none
  message : Option String := none
  timestamp : Option String := none
deriving DecidableEq

/-- One value of the `position_states` dict (bot.py line 41): the keys the
dispatcher stores for a symbol.  `direction` and `entry_price` are always
written at creation (lines 243-248), so they are plain fields (the
defensive `.get('direction', 'LONG')` on line 254 can only see them
present); `tp_price`/`sl_price` only appear after an exit signal (lines
263-264), hence `Option`. -/
structure PositionState where
  status : String
  entry_time : String
  entry_price : ℚ
  direction : String
  tp_price : Option ℚ := none
  sl_price : Option ℚ := none
deriving DecidableEq

/-- The `position_states` dict: symbol ↦ PositionState. -/
abbrev StateMap := List (String × PositionState)

/-- `symbol in position_states` followed by `position_states[symbol]`. -/
def lookupState : StateMap → String → Option PositionState
  | [], _ => none
  | (k, v) :: rest, s => if k = s then some v else lookupState rest s

/-- Python dict assignment `position_states[symbol] = st`: replace the
binding if the key exists, otherwise add it. -/
def setState : StateMap → String → PositionState → StateMap
  | [], s, st => [(s, st)]
  | (k, v) :: rest, s, st =>
    if k = s then (s, st) :: rest else (k, v) :: setState rest s st

/-- The momentum qualifier inside `format_entry_signal` (line 99):
`'(ниже -5.1)' if momentum < -5.1 else '(выше +5.1)'`. -/
def momentumLabel (momentum : ℚ) : String :=
  if momentum < -5.1 then "(ниже -5.1)" else "(выше +5.1)"

/-- Embeds `format_entry_signal` (bot.py lines 79-106).  `now` stands for
`datetime.utcnow().isoformat()` evaluated at format time. -/
def format_entry_signal (data : SignalRecord) (now : String) : String :=
  let signal_type := data.signal_type.getD "unknown"
  let direction :=
    if strContains (pyLower signal_type) "long" then "🟢 LONG" else "🔴 SHORT"
  let symbol := data.symbol.getD "UNKNOWN"
  let timeframe := data.timeframe.getD "7m"
  let price := data.price.getD 0
  let momentum := data.momentum.getD 0
  let vwap := data.vwap.getD 0
  let timestamp := data.timestamp.getD now
  pyStrip ("\n" ++ direction ++ " ВХОД В ПОЗИЦИЮ\n\n<b>Символ:</b> "
    ++ symbol ++ "\n<b>Таймфрейм:</b> " ++ timeframe
    ++ "\n<b>Цена:</b> $" ++ fmtFixed price 6
    ++ "\n\n📊 <b>Индикаторы:</b>\n• Momentum: " ++ fmtFixed momentum 2
    ++ " " ++ momentumLabel momentum
    ++ "\n• VWAP: $" ++ fmtFixed vwap 6
    ++ "\n\n⏰ <b>Время:</b> " ++ timestamp
    ++ "\n\n<i>Начат набор позиции. Ожидайте уведомление с TP/SL...</i>\n")

/-- The risk/reward computation of `format_exit_signal` (lines 119-127):
risk and reward distances chosen by direction, then `reward / risk if
risk > 0 else 0`.  The pair `p` is `(risk, reward)`. -/
def riskReward (direction : String) (entry_price tp_price sl_price : ℚ) : ℚ :=
  let p :=
    if pyUpper direction = "LONG"
      then (|entry_price - sl_price|, |tp_price - entry_price|)
      else (|sl_price - entry_price|, |entry_price - tp_price|)
  if p.1 > 0 then p.2 / p.1 else 0

/-- Embeds `format_exit_signal` (bot.py lines 109-148). -/
def format_exit_signal (data : SignalRecord) (now : String) : String :=
  let symbol := data.symbol.getD "UNKNOWN"
  let direction := data.direction.getD "LONG"
  let entry_price := data.entry_price.getD 0
  let tp_price := data.tp_price.getD 0
  let sl_price := data.sl_price.getD 0
  let momentum := data.momentum.getD 0
  let timestamp := data.timestamp.getD now
  let rr := riskReward direction entry_price tp_price sl_price
  let direction_emoji := if pyUpper direction = "LONG" then "🟢" else "🔴"
  pyStrip ("\n" ++ direction_emoji ++ " ПАРАМЕТРЫ ПОЗИЦИИ\n\n<b>Символ:</b> "
    ++ symbol ++ "\n<b>Направление:</b> " ++ pyUpper direction
    ++ "\n<b>Статус:</b> Набор позиции завершён\n\n🎯 <b>Take Profit:</b> $"
    ++ fmtFixed tp_price 6 ++ " (VWAP)\n🛡 <b>Stop Loss:</b> $"
    ++ fmtFixed sl_price 6 ++ " (ATR)\n\n📊 <b>Анализ:</b>\n• Momentum: "
    ++ fmtFixed momentum 2 ++ " (вышел из зоны)\n• Risk/Reward: 1:"
    ++ fmtFixed rr 2 ++ "\n• Плечо: 5x\n\n⏰ <b>Время:</b> " ++ timestamp)

/-- Embeds `format_update_signal` (bot.py lines 151-177). -/
def format_update_signal (data : SignalRecord) (now : String) : String :=
  let symbol := data.symbol.getD "UNKNOWN"
  let update_type := data.update_type.getD "info"
  let message_text := data.message.getD ""
  let price := data.price.getD 0
  let timestamp := data.timestamp.getD now
  let emoji :=
    if update_type = "warning" then "⚠️"
    else if update_type = "success" then "✅"
    else if update_type = "error" then "❌"
    else "ℹ️"
  pyStrip ("\n" ++ emoji ++ " ОБНОВЛЕНИЕ ПОЗИЦИИ\n\n<b>Символ:</b> "
    ++ symbol ++ "\n<b>Цена:</b> $" ++ fmtFixed price 6
    ++ "\n\n" ++ message_text ++ "\n\n⏰ <b>Время:</b> " ++ timestamp)

/-- The observable actions of one `webhook_handler` call, in program
order: a Telegram send (`await send_telegram_message(...)`), a read of
`position_states` for a symbol, a dict write for a symbol, or the
unknown-signal-type warning log (line 272). -/
inductive Event where
  | sendMsg (text : String)
  | readState (symbol : String)
  | writeState (symbol : String) (st : PositionState)
  | logUnknown (signal_type : String)
deriving DecidableEq

/-- The JSON body and status code `webhook_handler` answers with on each
non-exception path (lines 274-277). -/
structure WebhookResponse where
  status_code : ℕ
  status : String
  message : String
deriving DecidableEq

/-- Lines 274-277: status 200, `{"status": "success", "message": "Webhook
processed"}`. -/
def okResponse : WebhookResponse :=
  { status_code := 200, status := "success", message := "Webhook processed" }

/-- What one `webhook_handler` call produces: its ordered event trace, the
`position_states` dict after the call, and the HTTP response. -/
structure DispatchResult where
  events : List Event
  states : StateMap
  response : WebhookResponse
deriving DecidableEq

/-- Embeds the signal-processing body of `webhook_handler` (bot.py lines
233-277), after the authentication check and JSON parse.  `now` stands for
`datetime.utcnow().isoformat()`.  Line numbers in the branches refer to
src/bot.py. -/
def webhook_handler (payload : SignalRecord) (position_states : StateMap)
    (now : String) : DispatchResult :=
  let signal_type := payload.signal_type.getD ""
  let symbol := payload.symbol.getD ""
  if strContains (pyLower signal_type) "entry" then
    -- lines 237-248: entry signal
    let message := format_entry_signal payload now
    let newState : PositionState :=
      { status := "accumulating"
        entry_time := now
        entry_price := payload.price.getD 0
        direction :=
          if strContains (pyLower signal_type) "long" then "LONG" else "SHORT"
        tp_price := none
        sl_price := none }
    { events := [Event.sendMsg message, Event.writeState symbol newState]
      states := setState position_states symbol newState
      response := okResponse }
  else if strContains (pyLower signal_type) "exit" then
    -- lines 250-264: exit signal; merge stored state into the payload
    let merged :=
      match lookupState position_states symbol with
      | some st =>
        { payload with direction := some st.direction
                       entry_price := some st.entry_price }
      | none => payload
    let message := format_exit_signal merged now
    match lookupState position_states symbol with
    | some st =>
      let updated : PositionState :=
        { st with status := "active"
                  tp_price := some (payload.tp_price.getD 0)
                  sl_price := some (payload.sl_price.getD 0) }
      { events := [Event.readState symbol, Event.sendMsg message,
          Event.writeState symbol updated]
        states := setState position_states symbol updated
        response := okResponse }
    | none =>
      { events := [Event.readState symbol, Event.sendMsg message]
        states := position_states
        response := okResponse }
  else if strContains (pyLower signal_type) "update" then
    -- lines 266-269: update signal
    { events := [Event.sendMsg (format_update_signal payload now)]
      states := position_states
      response := okResponse }
  else
    -- lines 271-272: unrecognized signal type
    { events := [Event.logUnknown signal_type]
      states := position_states
      response := okResponse }

/-- The texts handed to the Telegram sink by a call, in order. -/
def sentMessages (events : List Event) : List String :=
  events.filterMap fun e =>
    match e with
    | Event.sendMsg t => some t
    | _ => none

/-- Is this event a hand-off to the outbound sink? -/
def isSendEvent : Event → Bool
  | Event.sendMsg _ => true
  | _ => false

/-- Is this event a position-state write? -/
def isWriteEvent : Event → Bool
  | Event.writeState _ _ => true
  | _ => false

/-- Is this event a position-state read? -/
def isReadEvent : Event → Bool
  | Event.readState _ => true
  | _ => false

/-- Every state write in the trace comes before every sink hand-off:
after any send, no write may follow. -/
def writesPrecedeSends : List Event → Bool
  | [] => true
  | e :: rest =>
    (if isSendEvent e then rest.all (fun x => !isWriteEvent x) else true)
      && writesPrecedeSends rest

/-- Every sink hand-off in the trace comes before every state write:
after any write, no send may follow. -/
def sendsPrecedeWrites : List Event → Bool
  | [] => true
  | e :: rest =>
    (if isWriteEvent e then rest.all (fun x => !isSendEvent x) else true)
      && sendsPrecedeWrites rest

/-- Every state write in the trace is preceded by at least one sink
hand-off. -/
def everyWriteAfterSomeSend : List Event → Bool
  | [] => true
  | e :: rest =>
    if isWriteEvent e then false
    else if isSendEvent e then true
    else everyWriteAfterSomeSend rest

/-- A fixed stand-in for `datetime.utcnow().isoformat()` in concrete
runs. -/
def sampleNow : String := "2025-01-01T00:00:00"

/-- A LONG entry payload, as in `test_entry_long` of src/test_webhook.py
(momentum simplified to an integer so that concrete runs stay decidable).
-/
def entryLongSample : SignalRecord :=
  { signal_type := some "entry_long", symbol := some "BTCUSDT",
    timeframe := some "7m", price := some 45000, momentum := some (-6),
    vwap := some 45100, timestamp := some sampleNow }

/-- A payload whose type mentions both "entry" and "exit". -/
def entryExitSample : SignalRecord :=
  { signal_type := some "entry_exit", symbol := some "BTCUSDT",
    price := some 45000, tp_price := some 46000, sl_price := some 44000 }

/-- An exit payload that also carries its own (conflicting) direction and
entry price, to exercise the merge override. -/
def exitConflictSample : SignalRecord :=
  { signal_type := some "exit_long", symbol := some "BTCUSDT",
    direction := some "SHORT", entry_price := some 1,
    tp_price := some 46000, sl_price := some 44000,
    momentum := some (-6), timestamp := some sampleNow }

/-- The position state an earlier LONG entry at 45000 left behind. -/
def storedStateSample : PositionState :=
  { status := "accumulating", entry_time := "2024-12-31T23:00:00",
    entry_price := 45000, direction := "LONG" }

/-- A pre-existing state in a different lifecycle phase, to exercise the
unconditional overwrite on re-entry. -/
def storedActiveSample : PositionState :=
  { status := "active", entry_time := "2024-12-30T00:00:00",
    entry_price := 100, direction := "SHORT",
    tp_price := some 110, sl_price := some 90 }

/-- An exit payload for a symbol that has no stored state and no
direction/entry price of its own. -/
def exitOrphanSample : SignalRecord :=
  { signal_type := some "exit_long", symbol := some "ETHUSDT",
    tp_price := some 2550, sl_price := some 2450, momentum := some 5 }

/-- An update payload. -/
def updateSample : SignalRecord :=
  { signal_type := some "update", symbol := some "BTCUSDT",
    update_type := some "warning", message := some "Funding rate spike",
    price := some 45000 }

/-- A payload with an unrecognized signal type. -/
def pingSample : SignalRecord :=
  { signal_type := some "ping", symbol := some "BTCUSDT" }

/-- An entry payload with momentum −5.3, just below the −5.1 threshold. -/
def entryMomNegSample : SignalRecord :=
  { signal_type := some "entry_long", symbol := some "BTCUSDT",
    momentum := some (-5.3), timestamp := some sampleNow }

/-- An entry payload with momentum 5.4, above the −5.1 threshold. -/
def entryMomPosSample : SignalRecord :=
  { signal_type := some "entry_short", symbol := some "ETHUSDT",
    momentum := some (5.4), timestamp := some sampleNow }

/-- The exit payload of the spec's risk/reward example: LONG, entry 45000,
stop 44000, target 46000. -/
def exitRRSample : SignalRecord :=
  { signal_type := some "exit_long", symbol := some "BTCUSDT",
    direction := some "LONG", entry_price := some 45000,
    tp_price := some 46000, sl_price := some 44000,
    momentum := some (-6), timestamp := some sampleNow }

/-! ## Helper lemmas -/

theorem ratFloor_intCast (m : ℤ) : ((m : ℚ)).floor = m := by
  rw [Rat.floor_def']
  simp

theorem roundHalfEven_intCast (m : ℤ) : roundHalfEven (m : ℚ) = m := by
  unfold roundHalfEven
  rw [ratFloor_intCast]
  norm_num

/-- Once the scaled value is known to be the integer `m`, `fmtFixed`
computes by integer and string operations alone. -/
theorem fmtFixed_eval (q : ℚ) (prec : ℕ) (m : ℤ)
    (h : q * ((10 : ℚ) ^ prec) = (m : ℚ)) :
    fmtFixed q prec =
      (if prec = 0 then
        (if m < 0 then "-" else "") ++ toString (m.natAbs / 10 ^ prec)
       else
        (if m < 0 then "-" else "") ++ toString (m.natAbs / 10 ^ prec)
          ++ "." ++ padZeros (toString (m.natAbs % 10 ^ prec)) prec) := by
  unfold fmtFixed
  rw [h, roundHalfEven_intCast]

theorem lookupState_setState_self (m : StateMap) (k : String)
    (v : PositionState) : lookupState (setState m k v) k = some v := by
  induction m with
  | nil => simp [setState, lookupState]
  | cons hd tl ih =>
    obtain ⟨k', v'⟩ := hd
    by_cases h : k' = k
    · simp [setState, lookupState, h]
    · simp [setState, lookupState, h, ih]

theorem lookupState_setState_ne (m : StateMap) (k s : String)
    (v : PositionState) (h : k ≠ s) :
    lookupState (setState m k v) s = lookupState m s := by
  induction m with
  | nil => simp [setState, lookupState, h]
  | cons hd tl ih =>
    obtain ⟨k', v'⟩ := hd
    by_cases h2 : k' = k
    · subst h2
      simp [setState, lookupState, h]
    · simp [setState, lookupState, h2, ih]

/-! ## Claim theorems -/

/-- C2: for every signal whose `signal_type` contains "entry"
(case-insensitively), dispatch writes a new PositionState for the signal's
symbol with status `accumulating`, `entry_time = now`, entry price the
payload's `price` (default 0), and direction LONG exactly when the type
contains "long", unconditionally overwriting any pre-existing state for
that symbol. -/
theorem entry_signal_writes_accumulating_state
    (p : SignalRecord) (states : StateMap) (now : String)
    (hE : strContains (pyLower (p.signal_type.getD "")) "entry" = true) :
    (webhook_handler p states now).states =
      setState states (p.symbol.getD "")
        { status := "accumulating"
          entry_time := now
          entry_price := p.price.getD 0
          direction :=
            if strContains (pyLower (p.signal_type.getD "")) "long"
              then "LONG" else "SHORT"
          tp_price := none
          sl_price := none }
    ∧ lookupState (webhook_handler p states now).states (p.symbol.getD "") =
        some
          { status := "accumulating"
            entry_time := now
            entry_price := p.price.getD 0
            direction :=
              if strContains (pyLower (p.signal_type.getD "")) "long"
                then "LONG" else "SHORT"
            tp_price := none
            sl_price := none } := by
  constructor
  · simp [webhook_handler, hE]
  · simp [webhook_handler, hE, lookupState_setState_self]

/-- C2 witness: a LONG entry for BTCUSDT overwrites the active SHORT
state previously stored for BTCUSDT. -/
theorem entry_signal_writes_accumulating_state_witness :
    strContains (pyLower (entryLongSample.signal_type.getD "")) "entry" = true
    ∧ ((webhook_handler entryLongSample [("BTCUSDT", storedActiveSample)]
          sampleNow).states =
        setState [("BTCUSDT", storedActiveSample)]
          (entryLongSample.symbol.getD "")
          { status := "accumulating"
            entry_time := sampleNow
            entry_price := entryLongSample.price.getD 0
            direction :=
              if strContains (pyLower (entryLongSample.signal_type.getD ""))
                "long" then "LONG" else "SHORT"
            tp_price := none
            sl_price := none }
      ∧ lookupState (webhook_handler entryLongSample
            [("BTCUSDT", storedActiveSample)] sampleNow).states
          (entryLongSample.symbol.getD "") =
          some
            { status := "accumulating"
              entry_time := sampleNow
              entry_price := entryLongSample.price.getD 0
              direction :=
                if strContains (pyLower (entryLongSample.signal_type.getD ""))
                  "long" then "LONG" else "SHORT"
              tp_price := none
              sl_price := none }) :=
  ⟨by decide,
   entry_signal_writes_accumulating_state entryLongSample
     [("BTCUSDT", storedActiveSample)] sampleNow (by decide)⟩

/-- C3: the dispatcher checks "entry", "exit", "update" in that fixed
priority order with first match winning; a signal whose type contains
"entry" — in particular one containing both "entry" and "exit" — is
classified and processed entirely as an entry signal. -/
theorem entry_wins_over_exit_in_classification
    (p : SignalRecord) (states : StateMap) (now : String)
    (hE : strContains (pyLower (p.signal_type.getD "")) "entry" = true)
    (hX : strContains (pyLower (p.signal_type.getD "")) "exit" = true) :
    webhook_handler p states now =
      { events :=
          [Event.sendMsg (format_entry_signal p now),
           Event.writeState (p.symbol.getD "")
             { status := "accumulating"
               entry_time := now
               entry_price := p.price.getD 0
               direction :=
                 if strContains (pyLower (p.signal_type.getD "")) "long"
                   then "LONG" else "SHORT"
               tp_price := none
               sl_price := none }]
        states :=
          setState states (p.symbol.getD "")
            { status := "accumulating"
              entry_time := now
              entry_price := p.price.getD 0
              direction :=
                if strContains (pyLower (p.signal_type.getD "")) "long"
                  then "LONG" else "SHORT"
              tp_price := none
              sl_price := none }
        response := okResponse } := by
  simp [webhook_handler, hE]

/-- C3 witness: the payload with `signal_type = "entry_exit"` goes down
the entry path. -/
theorem entry_wins_over_exit_in_classification_witness :
    strContains (pyLower (entryExitSample.signal_type.getD "")) "entry" = true
    ∧ strContains (pyLower (entryExitSample.signal_type.getD "")) "exit" = true
    ∧ webhook_handler entryExitSample [] sampleNow =
      { events :=
          [Event.sendMsg (format_entry_signal entryExitSample sampleNow),
           Event.writeState (entryExitSample.symbol.getD "")
             { status := "accumulating"
               entry_time := sampleNow
               entry_price := entryExitSample.price.getD 0
               direction :=
                 if strContains (pyLower (entryExitSample.signal_type.getD ""))
                   "long" then "LONG" else "SHORT"
               tp_price := none
               sl_price := none }]
        states :=
          setState [] (entryExitSample.symbol.getD "")
            { status := "accumulating"
              entry_time := sampleNow
              entry_price := entryExitSample.price.getD 0
              direction :=
                if strContains (pyLower (entryExitSample.signal_type.getD ""))
                  "long" then "LONG" else "SHORT"
              tp_price := none
              sl_price := none }
        response := okResponse } :=
  ⟨by decide, by decide,
   entry_wins_over_exit_in_classification entryExitSample [] sampleNow
     (by decide) (by decide)⟩

/-- C1: when an exit signal arrives for a symbol with a stored
PositionState, the message handed to the sink is formatted from the
stored state's `direction` and `entry_price` (so its risk/reward
computation uses them too), and the payload's own direction/entry_price
fields cannot influence it. -/
theorem exit_message_uses_stored_state
    (p : SignalRecord) (states : StateMap) (now : String)
    (st : PositionState)
    (hE : strContains (pyLower (p.signal_type.getD "")) "entry" = false)
    (hX : strContains (pyLower (p.signal_type.getD "")) "exit" = true)
    (hst : lookupState states (p.symbol.getD "") = some st) :
    sentMessages (webhook_handler p states now).events =
      [format_exit_signal
        { p with direction := some st.direction
                 entry_price := some st.entry_price } now]
    ∧ ∀ d : Option String, ∀ e : Option ℚ,
        sentMessages (webhook_handler
            { p with direction := d, entry_price := e } states now).events =
          sentMessages (webhook_handler p states now).events := by
  constructor
  · simp [webhook_handler, hE, hX, hst, sentMessages]
  · intro d e
    simp [webhook_handler, hE, hX, hst, sentMessages]

/-- C1 witness: the exit payload claims direction SHORT and entry price 1,
but the stored LONG state at 45000 wins. -/
theorem exit_message_uses_stored_state_witness :
    strContains (pyLower (exitConflictSample.signal_type.getD ""))
      "entry" = false
    ∧ strContains (pyLower (exitConflictSample.signal_type.getD ""))
        "exit" = true
    ∧ lookupState [("BTCUSDT", storedStateSample)]
        (exitConflictSample.symbol.getD "") = some storedStateSample
    ∧ (sentMessages (webhook_handler exitConflictSample
          [("BTCUSDT", storedStateSample)] sampleNow).events =
        [format_exit_signal
          { exitConflictSample with
              direction := some storedStateSample.direction
              entry_price := some storedStateSample.entry_price } sampleNow]
      ∧ ∀ d : Option String, ∀ e : Option ℚ,
          sentMessages (webhook_handler
              { exitConflictSample with direction := d, entry_price := e }
              [("BTCUSDT", storedStateSample)] sampleNow).events =
            sentMessages (webhook_handler exitConflictSample
              [("BTCUSDT", storedStateSample)] sampleNow).events) :=
  ⟨by decide, by decide, by decide,
   exit_message_uses_stored_state exitConflictSample
     [("BTCUSDT", storedStateSample)] sampleNow storedStateSample
     (by decide) (by decide) (by decide)⟩

/-- C6: a signal whose type contains none of "entry", "exit", "update" is
a logged per-request no-op: the state map is untouched, nothing is handed
to the sink, the only event is the unknown-type warning log, and the HTTP
response still reports success. -/
theorem unrecognized_signal_is_logged_noop
    (p : SignalRecord) (states : StateMap) (now : String)
    (hE : strContains (pyLower (p.signal_type.getD "")) "entry" = false)
    (hX : strContains (pyLower (p.signal_type.getD "")) "exit" = false)
    (hU : strContains (pyLower (p.signal_type.getD "")) "update" = false) :
    (webhook_handler p states now).states = states
    ∧ sentMessages (webhook_handler p states now).events = []
    ∧ (webhook_handler p states now).events =
        [Event.logUnknown (p.signal_type.getD "")]
    ∧ (webhook_handler p states now).response = okResponse := by
  simp [webhook_handler, hE, hX, hU, sentMessages]

/-- C6 witness: a "ping" signal against a non-empty store. -/
theorem unrecognized_signal_is_logged_noop_witness :
    strContains (pyLower (pingSample.signal_type.getD "")) "entry" = false
    ∧ strContains (pyLower (pingSample.signal_type.getD "")) "exit" = false
    ∧ strContains (pyLower (pingSample.signal_type.getD "")) "update" = false
    ∧ ((webhook_handler pingSample [("BTCUSDT", storedStateSample)]
          sampleNow).states = [("BTCUSDT", storedStateSample)]
      ∧ sentMessages (webhook_handler pingSample
          [("BTCUSDT", storedStateSample)] sampleNow).events = []
      ∧ (webhook_handler pingSample [("BTCUSDT", storedStateSample)]
          sampleNow).events = [Event.logUnknown (pingSample.signal_type.getD "")]
      ∧ (webhook_handler pingSample [("BTCUSDT", storedStateSample)]
          sampleNow).response = okResponse) :=
  ⟨by decide, by decide, by decide,
   unrecognized_signal_is_logged_noop pingSample
     [("BTCUSDT", storedStateSample)] sampleNow
     (by decide) (by decide) (by decide)⟩

/-- C7: an exit signal for a symbol with no stored state formats from the
payload itself — with direction defaulting to "LONG" and entry price to 0
when absent — skips the state mutation step, and creates no state for the
symbol. -/
theorem exit_without_state_uses_payload_defaults
    (p : SignalRecord) (states : StateMap) (now : String)
    (hE : strContains (pyLower (p.signal_type.getD "")) "entry" = false)
    (hX : strContains (pyLower (p.signal_type.getD "")) "exit" = true)
    (hnone : lookupState states (p.symbol.getD "") = none) :
    sentMessages (webhook_handler p states now).events =
      [format_exit_signal p now]
    ∧ (webhook_handler p states now).states = states
    ∧ lookupState (webhook_handler p states now).states (p.symbol.getD "") =
        none
    ∧ ((webhook_handler p states now).events.all fun e => !isWriteEvent e) =
        true
    ∧ (p.direction = none → p.entry_price = none →
        format_exit_signal p now =
          format_exit_signal
            { p with direction := some "LONG", entry_price := some 0 } now) := by
  refine ⟨?_, ?_, ?_, ?_, ?_⟩
  · simp [webhook_handler, hE, hX, hnone, sentMessages]
  · simp [webhook_handler, hE, hX, hnone]
  · simp [webhook_handler, hE, hX, hnone]
  · simp [webhook_handler, hE, hX, hnone, isWriteEvent]
  · intro hd he
    simp [format_exit_signal, hd, he]

/-- C7 witness: an exit for ETHUSDT while only BTCUSDT has state. -/
theorem exit_without_state_uses_payload_defaults_witness :
    strContains (pyLower (exitOrphanSample.signal_type.getD ""))
      "entry" = false
    ∧ strContains (pyLower (exitOrphanSample.signal_type.getD ""))
        "exit" = true
    ∧ lookupState [("BTCUSDT", storedStateSample)]
        (exitOrphanSample.symbol.getD "") = none
    ∧ (sentMessages (webhook_handler exitOrphanSample
          [("BTCUSDT", storedStateSample)] sampleNow).events =
        [format_exit_signal exitOrphanSample sampleNow]
      ∧ (webhook_handler exitOrphanSample [("BTCUSDT", storedStateSample)]
          sampleNow).states = [("BTCUSDT", storedStateSample)]
      ∧ lookupState (webhook_handler exitOrphanSample
            [("BTCUSDT", storedStateSample)] sampleNow).states
          (exitOrphanSample.symbol.getD "") = none
      ∧ ((webhook_handler exitOrphanSample [("BTCUSDT", storedStateSample)]
            sampleNow).events.all fun e => !isWriteEvent e) = true
      ∧ (exitOrphanSample.direction = none → exitOrphanSample.entry_price = none →
          format_exit_signal exitOrphanSample sampleNow =
            format_exit_signal
              { exitOrphanSample with
                  direction := some "LONG", entry_price := some 0 }
              sampleNow)) :=
  ⟨by decide, by decide, by decide,
   exit_without_state_uses_payload_defaults exitOrphanSample
     [("BTCUSDT", storedStateSample)] sampleNow
     (by decide) (by decide) (by decide)⟩

/-- C8: a signal classified as an update (contains "update" but neither
"entry" nor "exit") neither reads nor writes the position-state store —
whatever is stored for its symbol — and the one sink hand-off is the
update template applied directly to the payload. -/
theorem update_signal_touches_no_state
    (p : SignalRecord) (states : StateMap) (now : String)
    (hE : strContains (pyLower (p.signal_type.getD "")) "entry" = false)
    (hX : strContains (pyLower (p.signal_type.getD "")) "exit" = false)
    (hU : strContains (pyLower (p.signal_type.getD "")) "update" = true) :
    (webhook_handler p states now).events =
      [Event.sendMsg (format_update_signal p now)]
    ∧ ((webhook_handler p states now).events.all
        fun e => !isReadEvent e && !isWriteEvent e) = true
    ∧ (webhook_handler p states now).states = states := by
  refine ⟨?_, ?_, ?_⟩
  · simp [webhook_handler, hE, hX, hU]
  · simp [webhook_handler, hE, hX, hU, isReadEvent, isWriteEvent]
  · simp [webhook_handler, hE, hX, hU]

/-- C8 witness: an update for BTCUSDT while BTCUSDT has stored entry
state. -/
theorem update_signal_touches_no_state_witness :
    strContains (pyLower (updateSample.signal_type.getD "")) "entry" = false
    ∧ strContains (pyLower (updateSample.signal_type.getD "")) "exit" = false
    ∧ strContains (pyLower (updateSample.signal_type.getD "")) "update" = true
    ∧ ((webhook_handler updateSample [("BTCUSDT", storedStateSample)]
          sampleNow).events =
        [Event.sendMsg (format_update_signal updateSample sampleNow)]
      ∧ ((webhook_handler updateSample [("BTCUSDT", storedStateSample)]
            sampleNow).events.all
          fun e => !isReadEvent e && !isWriteEvent e) = true
      ∧ (webhook_handler updateSample [("BTCUSDT", storedStateSample)]
          sampleNow).states = [("BTCUSDT", storedStateSample)]) :=
  ⟨by decide, by decide, by decide,
   update_signal_touches_no_state updateSample
     [("BTCUSDT", storedStateSample)] sampleNow
     (by decide) (by decide) (by decide)⟩

/-- C10: dispatching any signal leaves the stored state of every symbol
other than the signal's own unchanged, on all four paths. -/
theorem dispatch_preserves_other_symbols
    (p : SignalRecord) (states : StateMap) (now : String) (s : String)
    (hs : s ≠ p.symbol.getD "") :
    lookupState (webhook_handler p states now).states s =
      lookupState states s := by
  by_cases hE : strContains (pyLower (p.signal_type.getD "")) "entry" = true
  · simp [webhook_handler, hE, lookupState_setState_ne _ _ _ _ (Ne.symm hs)]
  · rw [Bool.not_eq_true] at hE
    by_cases hX : strContains (pyLower (p.signal_type.getD "")) "exit" = true
    · cases hst : lookupState states (p.symbol.getD "") with
      | some st =>
        simp [webhook_handler, hE, hX, hst,
          lookupState_setState_ne _ _ _ _ (Ne.symm hs)]
      | none => simp [webhook_handler, hE, hX, hst]
    · rw [Bool.not_eq_true] at hX
      by_cases hU : strContains (pyLower (p.signal_type.getD "")) "update" = true
      · simp [webhook_handler, hE, hX, hU]
      · rw [Bool.not_eq_true] at hU
        simp [webhook_handler, hE, hX, hU]

/-- C10 witness: a BTCUSDT entry leaves the stored ETHUSDT state exactly
as it was. -/
theorem dispatch_preserves_other_symbols_witness :
    "ETHUSDT" ≠ entryLongSample.symbol.getD ""
    ∧ lookupState (webhook_handler entryLongSample
        [("ETHUSDT", storedActiveSample)] sampleNow).states "ETHUSDT" =
      lookupState [("ETHUSDT", storedActiveSample)] "ETHUSDT" :=
  ⟨by decide,
   dispatch_preserves_other_symbols entryLongSample
     [("ETHUSDT", storedActiveSample)] sampleNow "ETHUSDT" (by decide)⟩

/-- C5 counterexample: on a concrete entry signal the handler's trace is
send-then-write, so "the state write precedes the hand-off to the sink"
is false: the trace both contains a write and fails the
writes-precede-sends ordering. -/
theorem state_write_does_not_precede_send
    : writesPrecedeSends
        (webhook_handler entryLongSample [] sampleNow).events = false
    ∧ (webhook_handler entryLongSample [] sampleNow).events =
        [Event.sendMsg (format_entry_signal entryLongSample sampleNow),
         Event.writeState "BTCUSDT"
           { status := "accumulating"
             entry_time := sampleNow
             entry_price := 45000
             direction := "LONG"
             tp_price := none
             sl_price := none }] := by
  constructor
  · decide
  · simp [webhook_handler, entryLongSample,
      show strContains (pyLower "entry_long") "entry" = true from by decide,
      show strContains (pyLower "entry_long") "long" = true from by decide]

/-- C5 amended: dispatch proceeds classify → read/merge → format → hand
the text to the sink → write the state: on every path, every hand-off to
the sink precedes every state write, and every state write is preceded by
a hand-off. -/
theorem sink_handoff_precedes_state_write
    (p : SignalRecord) (states : StateMap) (now : String) :
    sendsPrecedeWrites (webhook_handler p states now).events = true
    ∧ everyWriteAfterSomeSend (webhook_handler p states now).events = true := by
  by_cases hE : strContains (pyLower (p.signal_type.getD "")) "entry" = true
  · simp [webhook_handler, hE, sendsPrecedeWrites, everyWriteAfterSomeSend,
      isSendEvent, isWriteEvent]
  · rw [Bool.not_eq_true] at hE
    by_cases hX : strContains (pyLower (p.signal_type.getD "")) "exit" = true
    · cases hst : lookupState states (p.symbol.getD "") with
      | some st =>
        simp [webhook_handler, hE, hX, hst, sendsPrecedeWrites,
          everyWriteAfterSomeSend, isSendEvent, isWriteEvent]
      | none =>
        simp [webhook_handler, hE, hX, hst, sendsPrecedeWrites,
          everyWriteAfterSomeSend, isSendEvent, isWriteEvent]
    · rw [Bool.not_eq_true] at hX
      by_cases hU : strContains (pyLower (p.signal_type.getD "")) "update" = true
      · simp [webhook_handler, hE, hX, hU, sendsPrecedeWrites,
          everyWriteAfterSomeSend, isSendEvent, isWriteEvent]
      · rw [Bool.not_eq_true] at hU
        simp [webhook_handler, hE, hX, hU, sendsPrecedeWrites,
          everyWriteAfterSomeSend, isSendEvent, isWriteEvent]

/-- C9: the entry message's momentum qualifier is the below-threshold
label "(ниже -5.1)" exactly when momentum < −5.1 (strict), and the
above-threshold label "(выше +5.1)" otherwise; momentum −5.3 gets the
below label and 5.4 the above label, as shown in the full formatted entry
messages. -/
theorem momentum_qualifier_strict_threshold :
    (∀ m : ℚ, momentumLabel m = "(ниже -5.1)" ↔ m < -5.1)
    ∧ (∀ m : ℚ, momentumLabel m = "(выше +5.1)" ↔ ¬(m < -5.1))
    ∧ momentumLabel (-5.3) = "(ниже -5.1)"
    ∧ momentumLabel 5.4 = "(выше +5.1)"
    ∧ strContains (format_entry_signal entryMomNegSample sampleNow)
        "(ниже -5.1)" = true
    ∧ strContains (format_entry_signal entryMomPosSample sampleNow)
        "(выше +5.1)" = true := by
  have hm1 : momentumLabel (-5.3) = "(ниже -5.1)" := by
    unfold momentumLabel
    rw [if_pos (show (-5.3 : ℚ) < -5.1 by norm_num)]
  have hm2 : momentumLabel 5.4 = "(выше +5.1)" := by
    unfold momentumLabel
    rw [if_neg (show ¬((5.4 : ℚ) < -5.1) by norm_num)]
  have hf2neg : fmtFixed (-5.3) 2 = "-5.30" := by
    rw [fmtFixed_eval (-5.3) 2 (-530) (by norm_num)]; decide
  have hf2pos : fmtFixed (5.4 : ℚ) 2 = "5.40" := by
    rw [fmtFixed_eval 5.4 2 540 (by norm_num)]; decide
  have hf6 : fmtFixed (0 : ℚ) 6 = "0.000000" := by
    rw [fmtFixed_eval 0 6 0 (by norm_num)]; decide
  refine ⟨?_, ?_, hm1, hm2, ?_, ?_⟩
  · intro m
    unfold momentumLabel
    split_ifs with h
    · exact iff_of_true rfl h
    · exact iff_of_false (by decide) h
  · intro m
    unfold momentumLabel
    split_ifs with h
    · exact iff_of_false (by decide) (by simpa using h)
    · exact iff_of_true rfl h
  · simp only [format_entry_signal, entryMomNegSample, Option.getD_some,
      Option.getD_none, hm1, hf2neg, hf6,
      show strContains (pyLower "entry_long") "long" = true from by decide]
    decide
  · simp only [format_entry_signal, entryMomPosSample, Option.getD_some,
      Option.getD_none, hm2, hf2pos, hf6,
      show strContains (pyLower "entry_short") "long" = false from by decide]
    decide

set_option maxRecDepth 8000 in
set_option maxHeartbeats 1000000 in
/-- C4: the exit formatter's risk/reward ratio uses the absolute
distances risk = |entry − sl| and reward = |tp − entry| for direction
LONG and the mirrored distances for SHORT, with the ratio
reward/risk guarded to 0 when risk is not positive; on the spec's example
(LONG, entry 45000, stop 44000, target 46000) the ratio is 1 and is
displayed as "1:1.00" in the exit message, and entry = stop displays
"1:0.00". -/
theorem risk_reward_formula_and_display :
    (∀ entry tp sl : ℚ, riskReward "LONG" entry tp sl =
        if |entry - sl| > 0 then |tp - entry| / |entry - sl| else 0)
    ∧ (∀ entry tp sl : ℚ, riskReward "SHORT" entry tp sl =
        if |sl - entry| > 0 then |entry - tp| / |sl - entry| else 0)
    ∧ riskReward "LONG" 45000 46000 44000 = 1
    ∧ "1:" ++ fmtFixed (riskReward "LONG" 45000 46000 44000) 2 = "1:1.00"
    ∧ (∀ entry tp : ℚ, riskReward "LONG" entry tp entry = 0)
    ∧ "1:" ++ fmtFixed (riskReward "LONG" 45000 46000 45000) 2 = "1:0.00"
    ∧ strContains (format_exit_signal exitRRSample sampleNow)
        "Risk/Reward: 1:1.00" = true := by
  have hL : pyUpper "LONG" = "LONG" := by decide
  have h1 : riskReward "LONG" 45000 46000 44000 = 1 := by
    simp only [riskReward, hL]
    norm_num
  have h0 : ∀ entry tp : ℚ, riskReward "LONG" entry tp entry = 0 := by
    intro entry tp
    simp [riskReward, hL]
  have hd1 : fmtFixed (1 : ℚ) 2 = "1.00" := by
    rw [fmtFixed_eval 1 2 100 (by norm_num)]; decide
  have hd0 : fmtFixed (0 : ℚ) 2 = "0.00" := by
    rw [fmtFixed_eval 0 2 0 (by norm_num)]; decide
  have hf46 : fmtFixed (46000 : ℚ) 6 = "46000.000000" := by
    rw [fmtFixed_eval 46000 6 46000000000 (by norm_num)]; decide
  have hf44 : fmtFixed (44000 : ℚ) 6 = "44000.000000" := by
    rw [fmtFixed_eval 44000 6 44000000000 (by norm_num)]; decide
  have hfm : fmtFixed (-6 : ℚ) 2 = "-6.00" := by
    rw [fmtFixed_eval (-6) 2 (-600) (by norm_num)]; decide
  refine ⟨?_, ?_, h1, ?_, h0, ?_, ?_⟩
  · intro entry tp sl
    simp [riskReward, hL]
  · intro entry tp sl
    simp [riskReward, show pyUpper "SHORT" = "SHORT" from by decide]
  · rw [h1, hd1]; decide
  · rw [h0 45000 46000, hd0]; decide
  · simp only [format_exit_signal, exitRRSample, Option.getD_some,
      Option.getD_none, hL, h1, hd1, hf46, hf44, hfm]
    decide
